import Mathlib

/-!
Verification of the WeKare backend_shared package: a shallow embedding of the
API-key verifier, JWT token verifier, database connection manager, generic
repository, and S3 presigned-URL helper, together with proofs of the
testable properties of the spec.
-/

/-- A process environment: maps a variable name to its value, if set. -/
def Env : Type := String → Option String

/-- `os.getenv(name, default)`. -/
def getenv (env : Env) (name default : String) : String :=
  (env name).getD default

/-- The environment with no variable set (every lookup falls to the default). -/
def emptyEnv : Env := fun _ => none

namespace APIKeyManager

/-- Embeds `APIKeyManager.get_service_api_key`: the key map with per-service
environment variables and hardcoded fallback defaults; unknown service names
map to the empty string (`key_map.get(service_name, "")`). -/
def get_service_api_key (env : Env) (service_name : String) : String :=
  if service_name = "profiles" then getenv env "PROFILES_API_KEY" "wekare-team-2024-profiles-api"
  else if service_name = "referrals" then getenv env "REFERRALS_API_KEY" "wekare-team-2024-referrals-api"
  else if service_name = "notifications" then getenv env "NOTIFICATIONS_API_KEY" "wekare-team-2024-notifications-api"
  else if service_name = "insurance" then getenv env "INSURANCE_API_KEY" "wekare-team-2024-insurance-api"
  else if service_name = "master" then getenv env "MASTER_API_KEY" "wekare-dev-2024"
  else ""

/-- Embeds `APIKeyManager.verify_service_api_key`: the provided key is accepted
iff it equals the expected key of the service or the master key
(`provided_key in [expected_key, master_key]`). -/
def verify_service_api_key (env : Env) (service_name provided_key : String) : Bool :=
  provided_key == get_service_api_key env service_name
    || provided_key == get_service_api_key env "master"

end APIKeyManager

/-- C6: for every environment and every service name, the configured master key
verifies successfully. -/
theorem master_key_always_verifies (env : Env) (s : String) :
    APIKeyManager.verify_service_api_key env s
      (APIKeyManager.get_service_api_key env "master") = true := by
  simp [APIKeyManager.verify_service_api_key]

/-- C6 witness: the master key verifies for the profiles service under the
default environment. -/
theorem master_key_always_verifies_witness :
    APIKeyManager.verify_service_api_key emptyEnv "profiles"
      (APIKeyManager.get_service_api_key emptyEnv "master") = true :=
  master_key_always_verifies emptyEnv "profiles"

/-- C2 counterexample: `"profiles"` and `"master"` are distinct service names
with distinct configured keys, yet the key configured for `"master"` verifies
for `"profiles"` — the master key is accepted for every service, so the claim
as universally stated is false. -/
theorem cross_service_key_counterexample :
    "profiles" ≠ "master"
      ∧ APIKeyManager.get_service_api_key emptyEnv "profiles"
          ≠ APIKeyManager.get_service_api_key emptyEnv "master"
      ∧ APIKeyManager.verify_service_api_key emptyEnv "profiles"
          (APIKeyManager.get_service_api_key emptyEnv "master") = true := by
  refine ⟨by decide, by decide, by decide⟩

/-- C2 (amended): a key configured for one service never verifies for a
different service, provided it also differs from the master key (the master
key of the master service itself is accepted everywhere by design). -/
theorem cross_service_key_rejected (env : Env) (s1 s2 : String)
    (hne : s1 ≠ s2)
    (hkeys : APIKeyManager.get_service_api_key env s2
      ≠ APIKeyManager.get_service_api_key env s1)
    (hmaster : APIKeyManager.get_service_api_key env s2
      ≠ APIKeyManager.get_service_api_key env "master") :
    APIKeyManager.verify_service_api_key env s1
      (APIKeyManager.get_service_api_key env s2) = false := by
  simp [APIKeyManager.verify_service_api_key, hkeys, hmaster]

/-- C2 (amended) witness: the referrals key does not verify for the profiles
service under the default environment. -/
theorem cross_service_key_rejected_witness :
    APIKeyManager.verify_service_api_key emptyEnv "profiles"
      (APIKeyManager.get_service_api_key emptyEnv "referrals") = false :=
  cross_service_key_rejected emptyEnv "profiles" "referrals"
    (by decide) (by decide) (by decide)

/-- C10: for every service name outside the known set, the expected key is the
empty string, and consequently an empty-string API key verifies successfully. -/
theorem unknown_service_empty_key_verifies (env : Env) (s : String)
    (h1 : s ≠ "profiles") (h2 : s ≠ "referrals") (h3 : s ≠ "notifications")
    (h4 : s ≠ "insurance") (h5 : s ≠ "master") :
    APIKeyManager.get_service_api_key env s = ""
      ∧ APIKeyManager.verify_service_api_key env s "" = true := by
  have hkey : APIKeyManager.get_service_api_key env s = "" := by
    simp [APIKeyManager.get_service_api_key, h1, h2, h3, h4, h5]
  refine ⟨hkey, ?_⟩
  simp [APIKeyManager.verify_service_api_key, hkey]

/-- C10 witness: the empty key verifies for the unknown service name
`"billing"` under the default environment. -/
theorem unknown_service_empty_key_verifies_witness :
    APIKeyManager.get_service_api_key emptyEnv "billing" = ""
      ∧ APIKeyManager.verify_service_api_key emptyEnv "billing" "" = true :=
  unknown_service_empty_key_verifies emptyEnv "billing"
    (by decide) (by decide) (by decide) (by decide) (by decide)

/-- An HTTP error response raised by the auth helpers. -/
structure HTTPException where
  status_code : Nat
  detail : String
deriving DecidableEq, Repr

namespace TokenVerifier

/-- `get_jwt_secret`: environment-sourced with the insecure default. -/
def get_jwt_secret (env : Env) : String := getenv env "JWT_SECRET" "secret"

/-- `get_jwt_algorithm`: environment-sourced with the HS256 default. -/
def get_jwt_algorithm (env : Env) : String := getenv env "JWT_ALGORITHM" "HS256"

/-- A JWT as seen by the verifier: its claims, the secret it was actually
signed with, its algorithm, and whether it is past its expiry. -/
structure JWTToken where
  payload : List (String × String)
  signed_with : String
  alg : String
  expired : Bool
deriving DecidableEq, Repr

/-- Model of `jwt.decode` from the external JWT library: decoding succeeds exactly
when the signature of the token was produced with the given secret, its algorithm is
among the allowed ones, and it is not expired; any failure raises. -/
def jwt_decode (tok : JWTToken) (secret : String) (algorithms : List String) :
    Except String (List (String × String)) :=
  if tok.signed_with = secret ∧ tok.alg ∈ algorithms ∧ tok.expired = false then
    .ok tok.payload
  else
    .error "signature verification failed"

/-- Embeds `get_token_from_request`: 401 when the Authorization header is
absent or does not start with `"Bearer "`; otherwise the second
space-separated part is the token. -/
def get_token_from_request (auth : Option String) : Except HTTPException String :=
  match auth with
  | none => .error ⟨401, "Missing token"⟩
  | some a =>
    if a.startsWith "Bearer " then
      let token_parts := a.splitOn " "
      if token_parts.length < 2 then .error ⟨401, "Missing token"⟩
      else .ok (token_parts.getD 1 "")
    else .error ⟨401, "Missing token"⟩

/-- Embeds `verify_token`: decode against the configured secret and algorithm;
every decode failure is mapped uniformly to a 403 "Invalid token". -/
def verify_token (env : Env) (tok : JWTToken) :
    Except HTTPException (List (String × String)) :=
  match jwt_decode tok (get_jwt_secret env) [get_jwt_algorithm env] with
  | .ok payload => .ok payload
  | .error _ => .error ⟨403, "Invalid token"⟩

end TokenVerifier

/-- C8: token verification fails with 401 when the header is absent or not
prefixed `"Bearer "`; `verify_token` either succeeds or fails with exactly
the uniform 403 "Invalid token" error; and a token signed with a secret
different from the configured one always yields that 403, regardless of
payload, algorithm or expiry. -/
theorem token_check_spec :
    (TokenVerifier.get_token_from_request none = .error ⟨401, "Missing token"⟩)
      ∧ (∀ a : String, a.startsWith "Bearer " = false →
          TokenVerifier.get_token_from_request (some a) = .error ⟨401, "Missing token"⟩)
      ∧ (∀ (env : Env) (tok : TokenVerifier.JWTToken),
          TokenVerifier.verify_token env tok = .ok tok.payload
            ∨ TokenVerifier.verify_token env tok = .error ⟨403, "Invalid token"⟩)
      ∧ (∀ (env : Env) (tok : TokenVerifier.JWTToken),
          tok.signed_with ≠ TokenVerifier.get_jwt_secret env →
          TokenVerifier.verify_token env tok = .error ⟨403, "Invalid token"⟩) := by
  refine ⟨rfl, ?_, ?_, ?_⟩
  · intro a ha
    simp [TokenVerifier.get_token_from_request, ha]
  · intro env tok
    by_cases h : tok.signed_with = TokenVerifier.get_jwt_secret env ∧
        tok.alg ∈ [TokenVerifier.get_jwt_algorithm env] ∧ tok.expired = false
    · left
      unfold TokenVerifier.verify_token TokenVerifier.jwt_decode
      rw [if_pos h]
    · right
      unfold TokenVerifier.verify_token TokenVerifier.jwt_decode
      rw [if_neg h]
  · intro env tok hsecret
    unfold TokenVerifier.verify_token TokenVerifier.jwt_decode
    rw [if_neg]
    intro hcond
    exact hsecret hcond.1

/-- C8 witness: a token signed with secret `"X"` is rejected with 403 under the
default environment (configured secret `"secret"`), despite a valid payload. -/
theorem token_check_spec_witness :
    TokenVerifier.verify_token emptyEnv ⟨[("sub", "user-1")], "X", "HS256", false⟩
      = .error ⟨403, "Invalid token"⟩ :=
  token_check_spec.2.2.2 emptyEnv ⟨[("sub", "user-1")], "X", "HS256", false⟩ (by decide)

namespace S3Client

/-- The `str.upper()` method of Python modelled over the character list (the HTTP method
strings involved are ASCII). -/
def upper (s : String) : String := String.mk (s.data.map Char.toUpper)

/-- The `method_map` of `get_presigned_url`: supported HTTP methods and the
corresponding storage-backend client method names. -/
def method_map (m : String) : Option String :=
  if m = "GET" then some "get_object"
  else if m = "PUT" then some "put_object"
  else if m = "DELETE" then some "delete_object"
  else none

/-- Embeds `S3Client.get_presigned_url`. The `backend` argument models the
external `generate_presigned_url` call (returning `none` when it raises a
caught error). The boolean in the result records whether the storage backend
was invoked at all. -/
def get_presigned_url (backend : String → String → Nat → Option String)
    (s3_key : String) (expiration : Nat) (http_method : String) :
    Option String × Bool :=
  match method_map (upper http_method) with
  | none => (none, false)
  | some client_method =>
    match backend client_method s3_key expiration with
    | some url => (some url, true)
    | none => (none, true)

end S3Client

/-- C9: for every HTTP method string whose uppercasing is not GET, PUT or
DELETE, `get_presigned_url` returns null without invoking the storage
presigned-URL generation of the storage backend. -/
theorem presigned_url_unsupported_method
    (backend : String → String → Nat → Option String)
    (s3_key : String) (expiration : Nat) (http_method : String)
    (h1 : S3Client.upper http_method ≠ "GET") (h2 : S3Client.upper http_method ≠ "PUT")
    (h3 : S3Client.upper http_method ≠ "DELETE") :
    S3Client.get_presigned_url backend s3_key expiration http_method = (none, false) := by
  unfold S3Client.get_presigned_url
  have hmap : S3Client.method_map (S3Client.upper http_method) = none := by
    simp [S3Client.method_map, h1, h2, h3]
  rw [hmap]

/-- C9 witness: a `"patch"` presigned-URL request returns null and never
contacts the backend, even when the backend would succeed. -/
theorem presigned_url_unsupported_method_witness :
    S3Client.get_presigned_url (fun _ _ _ => some "https://bucket/url")
      "docs/a.txt" 3600 "patch" = (none, false) :=
  presigned_url_unsupported_method (fun _ _ _ => some "https://bucket/url")
    "docs/a.txt" 3600 "patch" (by decide) (by decide) (by decide)

namespace DatabaseConnection

/-- Points at which the external calls inside `connect` can raise:
`create_async_engine` itself, or the liveness/session probes that run after
the engine and session factory have already been assigned. -/
inductive ConnectOutcome
  | engineFail
  | probeFail
  | ok
deriving DecidableEq, Repr

/-- Whether `engine.dispose()` inside `disconnect` raises. -/
inductive DisconnectOutcome
  | disposeFail
  | ok
deriving DecidableEq, Repr

/-- The mutable fields of a `DatabaseConnection` instance; engine handles and
session factories are abstracted to opaque numeric handles. -/
structure State where
  engine : Option Nat
  session_factory : Option Nat
  database_url : Option String
deriving DecidableEq, Repr

/-- `DatabaseConnection.__init__`: all fields start as `None`. -/
def init : State := ⟨none, none, none⟩

/-- Embeds `connect`: `database_url` is assigned before the `try` block; the
engine and session factory are assigned before the connection probes, so a
probe failure leaves them assigned while the call raises. -/
def connect (s : State) (url : String) (o : ConnectOutcome) : State :=
  let s1 : State := { s with database_url := some url }
  match o with
  | .engineFail => s1
  | .probeFail => { s1 with engine := some 0, session_factory := some 0 }
  | .ok => { s1 with engine := some 0, session_factory := some 0 }

/-- Embeds `disconnect`: if an engine exists its `dispose` runs first (a
dispose failure re-raises before any field is cleared); otherwise, and on
success, all three fields are reset to `None`. -/
def disconnect (s : State) (o : DisconnectOutcome) : State :=
  match s.engine, o with
  | some _, .disposeFail => s
  | _, _ => ⟨none, none, none⟩

/-- Embeds `get_session`: raises "Database connection not established" when
the session factory is `None`, otherwise returns a fresh session. -/
def get_session (s : State) : Except String Nat :=
  match s.session_factory with
  | none => .error "Database connection not established"
  | some f => .ok f

/-- A lifecycle event: one `connect` or `disconnect` call together with the
behaviour of the external calls inside it. -/
inductive Event
  | connect (url : String) (o : ConnectOutcome)
  | disconnect (o : DisconnectOutcome)
deriving DecidableEq, Repr

/-- One lifecycle step. -/
def step (s : State) : Event → State
  | .connect url o => connect s url o
  | .disconnect o => disconnect s o

/-- Run a sequence of lifecycle events from the freshly constructed state. -/
def run (es : List Event) : State := es.foldl step init

/-- Whether `get_session` succeeds in a state. -/
def sessionSucceeds (s : State) : Bool :=
  match get_session s with
  | .ok _ => true
  | .error _ => false

/-- Follows the words of the claim: some `connect` call has completed successfully
(outcome `ok`) and no `disconnect` call has happened since. -/
def specConnectedSince (es : List Event) : Bool :=
  es.foldl
    (fun b e =>
      match e with
      | .connect _ .ok => true
      | .connect _ _ => b
      | .disconnect _ => false)
    false

/-- What the code actually maintains: some `connect` call has reached the
session-factory assignment (outcome `probeFail` or `ok`, i.e. anything past
`create_async_engine`) and no successful `disconnect` has cleared it since;
a `disconnect` whose dispose raises clears nothing. -/
def factoryReached (es : List Event) : Bool :=
  es.foldl
    (fun b e =>
      match e with
      | .connect _ .engineFail => b
      | .connect _ _ => true
      | .disconnect .ok => false
      | .disconnect .disposeFail => b)
    false

/-- In every reachable state the engine and session factory are assigned
together; the fold `factoryReached` tracks exactly whether they are set. -/
theorem foldl_factory_invariant (es : List Event) :
    ∀ s : State, s.engine.isSome = s.session_factory.isSome →
      (es.foldl step s).session_factory.isSome
          = es.foldl
              (fun b e =>
                match e with
                | .connect _ .engineFail => b
                | .connect _ _ => true
                | .disconnect .ok => false
                | .disconnect .disposeFail => b)
              s.session_factory.isSome
        ∧ (es.foldl step s).engine.isSome = (es.foldl step s).session_factory.isSome := by
  induction es with
  | nil => intro s hs; exact ⟨rfl, hs⟩
  | cons e rest ih =>
    intro s hs
    cases e with
    | connect url o =>
      cases o with
      | engineFail =>
        simpa [step, connect] using ih { s with database_url := some url } hs
      | probeFail =>
        simpa [step, connect] using
          ih { s with database_url := some url, engine := some 0, session_factory := some 0 } rfl
      | ok =>
        simpa [step, connect] using
          ih { s with database_url := some url, engine := some 0, session_factory := some 0 } rfl
    | disconnect o =>
      cases o with
      | disposeFail =>
        cases heng : s.engine with
        | none =>
          have hfac : s.session_factory.isSome = false := by
            rw [← hs, heng]; rfl
          have := ih (⟨none, none, none⟩ : State) rfl
          simpa [step, disconnect, heng, hfac] using this
        | some n =>
          have hfac : s.session_factory.isSome = true := by
            rw [← hs, heng]; rfl
          have := ih s hs
          simpa [step, disconnect, heng, hfac] using this
      | ok =>
        cases heng : s.engine with
        | none =>
          simpa [step, disconnect, heng] using ih (⟨none, none, none⟩ : State) rfl
        | some n =>
          simpa [step, disconnect, heng] using ih (⟨none, none, none⟩ : State) rfl

end DatabaseConnection

/-- `get_session` succeeds exactly when the session factory field is set. -/
theorem sessionSucceeds_eq_isSome (s : DatabaseConnection.State) :
    DatabaseConnection.sessionSucceeds s = s.session_factory.isSome := by
  cases h : s.session_factory with
  | none => simp [DatabaseConnection.sessionSucceeds, DatabaseConnection.get_session, h]
  | some f => simp [DatabaseConnection.sessionSucceeds, DatabaseConnection.get_session, h]

/-- C3 counterexample: after a single `connect` whose liveness probe raises —
a connect that did NOT complete successfully — `get_session` nevertheless
succeeds, because the session factory was assigned before the probe ran.
The claimed invariant is therefore false on the code. -/
theorem session_invariant_counterexample :
    ¬ (DatabaseConnection.sessionSucceeds
          (DatabaseConnection.run
            [DatabaseConnection.Event.connect "postgresql://db" DatabaseConnection.ConnectOutcome.probeFail]) = true →
        DatabaseConnection.specConnectedSince
          [DatabaseConnection.Event.connect "postgresql://db" DatabaseConnection.ConnectOutcome.probeFail] = true) := by
  decide

/-- C3 (amended): in every state reachable by any sequence of connect and
disconnect steps (including calls that raise), `get_session()` succeeds
exactly when some `connect` has progressed past engine creation — i.e. has
assigned the session factory, even if a later probe raised — and no successful
`disconnect` has cleared it since. -/
theorem session_usable_iff_factory_reached (es : List DatabaseConnection.Event) :
    DatabaseConnection.sessionSucceeds (DatabaseConnection.run es)
      = DatabaseConnection.factoryReached es := by
  have h := DatabaseConnection.foldl_factory_invariant es DatabaseConnection.init rfl
  rw [DatabaseConnection.run, sessionSucceeds_eq_isSome, DatabaseConnection.factoryReached]
  exact h.1

/-- C7: `get_session()` fails with the "not established" error before any
connect, and fails with it again after a successful connect followed by a
successful disconnect. -/
theorem get_session_lifecycle_errors :
    DatabaseConnection.get_session (DatabaseConnection.run [])
        = .error "Database connection not established"
      ∧ ∀ url : String,
          DatabaseConnection.get_session
            (DatabaseConnection.run
              [DatabaseConnection.Event.connect url DatabaseConnection.ConnectOutcome.ok,
               DatabaseConnection.Event.disconnect DatabaseConnection.DisconnectOutcome.ok])
            = .error "Database connection not established" := by
  constructor
  · rfl
  · intro url
    rfl

/-- A record-type descriptor as the repository sees it through `hasattr` and
`getattr`: the class name, which fields exist, the (orderable) column
value, and the identity column. -/
structure ModelClass (T : Type) where
  class_name : String
  has_attr : String → Bool
  attr : String → T → Int
  idOf : T → Nat

namespace BaseRepository

/-- OFFSET then LIMIT, applied in the order `get_all` adds them to the query. -/
def paginate {T : Type} (limit offset : Option Nat) (l : List T) : List T :=
  let l1 := match offset with
    | some o => l.drop o
    | none => l
  match limit with
  | some n => l1.take n
  | none => l1

/-- The condition `if order_by and hasattr(self.model_class, order_by)`:
`order_by` must be given, truthy (non-empty), and an existing field. -/
def validOrder {T : Type} (mc : ModelClass T) : Option String → Bool
  | none => false
  | some f => (!(f == "")) && mc.has_attr f

/-- Embeds `get_all`: the table contents are modelled as the list of rows in
insertion order and ORDER BY as a stable sort on the selected column
(ascending for an explicit `order_by`, descending for the `created_at`
default); pagination is applied to the ordered rows. -/
def get_all {T : Type} (mc : ModelClass T) (db : List T)
    (limit offset : Option Nat) (order_by : Option String) : List T :=
  let base :=
    if validOrder mc order_by then
      List.insertionSort
        (fun a b => mc.attr (order_by.getD "") a ≤ mc.attr (order_by.getD "") b) db
    else if mc.has_attr "created_at" then
      List.insertionSort
        (fun a b => mc.attr "created_at" b ≤ mc.attr "created_at" a) db
    else db
  paginate limit offset base

/-- Embeds `get_by_organization`: filter on the tenant column when the record
type has one, otherwise raise the "not multi-tenant" `AttributeError`. -/
def get_by_organization {T : Type} (mc : ModelClass T) (db : List T)
    (organization_id : Int) : Except String (List T) :=
  if mc.has_attr "organization_id" then
    .ok (db.filter (fun r => mc.attr "organization_id" r == organization_id))
  else
    .error (mc.class_name ++ " is not multi-tenant")

/-- Embeds `delete`: the DELETE statement removes every row whose identity
column equals `id`; the returned boolean is `rowcount > 0`. -/
def delete {T : Type} (mc : ModelClass T) (db : List T) (i : Nat) : List T × Bool :=
  let remaining := db.filter (fun r => !(mc.idOf r == i))
  let rowcount := db.length - remaining.length
  (remaining, decide (0 < rowcount))

end BaseRepository

/-- The record shape of the scenario: identity, name and creation-time columns. -/
structure SampleRecord where
  id : Nat
  name : String
  created_at : Int
deriving DecidableEq, Repr

/-- The descriptor for `SampleRecord`: it has `id`, `name` and `created_at`
fields and no `organization_id`. -/
def sampleModel : ModelClass SampleRecord where
  class_name := "SampleRecord"
  has_attr := fun f => f == "id" || f == "name" || f == "created_at"
  attr := fun f r =>
    if f == "id" then (r.id : Int)
    else if f == "created_at" then r.created_at
    else 0
  idOf := fun r => r.id

/-- A multi-tenant record shape: adds an `organization_id` column. -/
structure TenantRecord where
  id : Nat
  organization_id : Int
  created_at : Int
deriving DecidableEq, Repr

/-- The descriptor for `TenantRecord`. -/
def tenantModel : ModelClass TenantRecord where
  class_name := "TenantRecord"
  has_attr := fun f => f == "id" || f == "organization_id" || f == "created_at"
  attr := fun f r =>
    if f == "id" then (r.id : Int)
    else if f == "organization_id" then r.organization_id
    else if f == "created_at" then r.created_at
    else 0
  idOf := fun r => r.id

/-- Pagination only drops rows, so the page is a sublist of the ordered rows. -/
theorem paginate_sublist {T : Type} (limit offset : Option Nat) (l : List T) :
    List.Sublist (BaseRepository.paginate limit offset l) l := by
  unfold BaseRepository.paginate
  cases offset with
  | none =>
    cases limit with
    | none => exact List.Sublist.refl l
    | some n => exact List.take_sublist n l
  | some o =>
    cases limit with
    | none => exact List.drop_sublist o l
    | some n => exact (List.take_sublist n (l.drop o)).trans (List.drop_sublist o l)

/-- Removing an element that fails the predicate makes the filter strictly
shorter. -/
theorem length_filter_lt_of_mem {T : Type} {p : T → Bool} :
    ∀ {l : List T} {a : T}, a ∈ l → p a = false → (l.filter p).length < l.length := by
  intro l
  induction l with
  | nil => intro a ha; cases ha
  | cons x xs ih =>
    intro a ha hpa
    rcases List.mem_cons.mp ha with h | h
    · subst h
      rw [List.filter_cons, if_neg (by simp [hpa])]
      exact Nat.lt_succ_of_le (List.length_filter_le p xs)
    · rw [List.filter_cons]
      by_cases hx : p x = true
      · rw [if_pos (by simp [hx])]
        simpa using Nat.succ_lt_succ (ih h hpa)
      · rw [if_neg (by simpa using hx)]
        exact Nat.lt_succ_of_lt (ih h hpa)

/-- C1: `get_all` ordering rule: with a given, valid `order_by` field the
result is ordered by that field; otherwise, when the record type has a
`created_at` column, the result is ordered by descending creation time;
otherwise it is the stored order, with pagination only. In particular, after
creating records A then B, `get_all(limit=1, order_by="created_at desc")`
(not a valid field name, hence the descending default) returns only the most
recently created record. -/
theorem get_all_ordering_spec {T : Type} (mc : ModelClass T) (db : List T)
    (limit offset : Option Nat) (ob : Option String) :
    (BaseRepository.validOrder mc ob = true →
      List.Pairwise (fun a b => mc.attr (ob.getD "") a ≤ mc.attr (ob.getD "") b)
        (BaseRepository.get_all mc db limit offset ob))
  ∧ (BaseRepository.validOrder mc ob = false → mc.has_attr "created_at" = true →
      List.Pairwise (fun a b => mc.attr "created_at" b ≤ mc.attr "created_at" a)
        (BaseRepository.get_all mc db limit offset ob))
  ∧ (BaseRepository.validOrder mc ob = false → mc.has_attr "created_at" = false →
      BaseRepository.get_all mc db limit offset ob = BaseRepository.paginate limit offset db)
  ∧ BaseRepository.get_all sampleModel
      [⟨1, "A", 0⟩, ⟨2, "B", 1⟩] (some 1) none (some "created_at desc")
      = [⟨2, "B", 1⟩] := by
  refine ⟨?_, ?_, ?_, by decide⟩
  · intro h
    haveI : IsTotal T (fun a b => mc.attr (ob.getD "") a ≤ mc.attr (ob.getD "") b) :=
      ⟨fun a b => Int.le_total _ _⟩
    haveI : IsTrans T (fun a b => mc.attr (ob.getD "") a ≤ mc.attr (ob.getD "") b) :=
      ⟨fun a b c h1 h2 => le_trans h1 h2⟩
    have hs := List.sorted_insertionSort
      (fun a b => mc.attr (ob.getD "") a ≤ mc.attr (ob.getD "") b) db
    simp only [BaseRepository.get_all, h, if_true]
    exact List.Pairwise.sublist (paginate_sublist limit offset _) hs
  · intro h hca
    haveI : IsTotal T (fun a b => mc.attr "created_at" b ≤ mc.attr "created_at" a) :=
      ⟨fun a b => Int.le_total _ _⟩
    haveI : IsTrans T (fun a b => mc.attr "created_at" b ≤ mc.attr "created_at" a) :=
      ⟨fun a b c h1 h2 => le_trans h2 h1⟩
    have hs := List.sorted_insertionSort
      (fun a b => mc.attr "created_at" b ≤ mc.attr "created_at" a) db
    simp only [BaseRepository.get_all, h, hca, if_true, Bool.false_eq_true, if_false]
    exact List.Pairwise.sublist (paginate_sublist limit offset _) hs
  · intro h hca
    simp only [BaseRepository.get_all, h, hca, Bool.false_eq_true, if_false]

/-- C1 witness: with `order_by = "id"` (a valid field), the returned rows are
ordered by the `id` column. -/
theorem get_all_ordering_spec_witness :
    List.Pairwise
      (fun a b => sampleModel.attr ((some "id").getD "") a
        ≤ sampleModel.attr ((some "id").getD "") b)
      (BaseRepository.get_all sampleModel
        [⟨2, "B", 1⟩, ⟨1, "A", 0⟩] none none (some "id")) :=
  (get_all_ordering_spec sampleModel [⟨2, "B", 1⟩, ⟨1, "A", 0⟩] none none
    (some "id")).1 (by decide)

/-- C4: `delete(id)` returns true exactly once: it returns true iff some
record matched (and removes every match), a second call on the resulting
state returns false, and a call on an id matching no record returns false
and removes nothing. -/
theorem delete_true_exactly_once {T : Type} (mc : ModelClass T) (db : List T) (i : Nat) :
    ((∃ r ∈ db, mc.idOf r = i) → (BaseRepository.delete mc db i).2 = true)
  ∧ (BaseRepository.delete mc (BaseRepository.delete mc db i).1 i).2 = false
  ∧ ((∀ r ∈ db, mc.idOf r ≠ i) →
      (BaseRepository.delete mc db i).2 = false
        ∧ (BaseRepository.delete mc db i).1 = db) := by
  refine ⟨?_, ?_, ?_⟩
  · rintro ⟨r, hr, hid⟩
    have hfalse : (!(mc.idOf r == i)) = false := by simp [hid]
    have hlt := length_filter_lt_of_mem (p := fun r => !(mc.idOf r == i)) hr hfalse
    simp only [BaseRepository.delete, decide_eq_true_eq]
    omega
  · have heq : (db.filter (fun r => !(mc.idOf r == i))).filter (fun r => !(mc.idOf r == i))
        = db.filter (fun r => !(mc.idOf r == i)) :=
      List.filter_eq_self.mpr (fun r hr => (List.mem_filter.mp hr).2)
    simp [BaseRepository.delete, heq]
  · intro hnone
    have hall : ∀ r ∈ db, (!(mc.idOf r == i)) = true := by
      intro r hr
      simp [hnone r hr]
    have heq : db.filter (fun r => !(mc.idOf r == i)) = db := List.filter_eq_self.mpr hall
    constructor
    · simp [BaseRepository.delete, heq]
    · simp [BaseRepository.delete, heq]

/-- C4 witness: deleting the only record with id 1 returns true. -/
theorem delete_true_exactly_once_witness :
    (BaseRepository.delete sampleModel [⟨1, "A", 0⟩] 1).2 = true :=
  (delete_true_exactly_once sampleModel [⟨1, "A", 0⟩] 1).1 ⟨⟨1, "A", 0⟩, by simp, rfl⟩

/-- C5: `get_by_organization` raises the "not multi-tenant" error (and hence
never returns data) for record types without an `organization_id` column, and
for record types with one returns exactly the stored records whose tenant
column equals the requested organization id. -/
theorem get_by_organization_spec {T : Type} (mc : ModelClass T) (db : List T) (org : Int) :
    (mc.has_attr "organization_id" = false →
      BaseRepository.get_by_organization mc db org
        = .error (mc.class_name ++ " is not multi-tenant"))
  ∧ (mc.has_attr "organization_id" = true →
      ∃ l, BaseRepository.get_by_organization mc db org = .ok l
        ∧ ∀ r, r ∈ l ↔ (r ∈ db ∧ mc.attr "organization_id" r = org)) := by
  constructor
  · intro h
    simp only [BaseRepository.get_by_organization, h, Bool.false_eq_true, if_false]
  · intro h
    refine ⟨db.filter (fun r => mc.attr "organization_id" r == org), ?_, ?_⟩
    · simp only [BaseRepository.get_by_organization, h, if_true]
    · intro r
      simp [List.mem_filter]

/-- C5 witness: `SampleRecord` has no tenant column, so `get_by_organization`
fails with the "not multi-tenant" error on it. -/
theorem get_by_organization_spec_witness :
    BaseRepository.get_by_organization sampleModel [⟨1, "A", 0⟩] 7
      = .error (sampleModel.class_name ++ " is not multi-tenant") :=
  (get_by_organization_spec sampleModel [⟨1, "A", 0⟩] 7).1 (by decide)
